import Mathlib

/-!
Verification of the SaveContext status-cache subsystem: a shallow embedding of
`server/scripts/statusline.py` (the Renderer, with `get_savecontext_session` and
`parse_context_from_transcript`) and `server/scripts/update-status-cache.py`
(the Mapper hook, with `get_status_key`, `parse_tool_response`,
`extract_session_info` and `update_cache`).

Modelling conventions:
* Python integers are `Int`; Python `//` on integers is floor division, `Int.fdiv`.
* Python float arithmetic in the percent computation is modelled exactly over `ℚ`.
* A JSON env-var / dict-field that may be missing is `Option _`; Python
  truthiness of a string (None and "" falsy) is the predicate `≠ ""` on a
  plain `String` field, or the helper `tstr` on an `Option String`.
* The per-key slice of the filesystem is a `CacheState`: the content of
  `<key>.json` and of the temp sibling `.<key>.tmp`.  File operations that the
  scripts guard with `try/except` take explicit failure flags (`FsFail`).
-/

namespace SaveContext


/-- The cache record schema (statusline.py / update-status-cache.py): fields
`sessionId`, `sessionName`, `projectPath`, `itemCount`, `sessionStatus`,
`provider` and a `timestamp` in ms since epoch.  A JSON file lacking
`timestamp` reads as `timestamp = 0` via `data.get('timestamp', 0)`, so it is
represented by a record with `timestamp := 0`. -/
structure CacheRecord where
  sessionId : String
  sessionName : String
  projectPath : String
  itemCount : Int
  sessionStatus : String
  provider : String
  timestamp : Int
deriving Repr, DecidableEq

/-- Content of the cache file `<key>.json`: either JSON that fails to parse as
a record (`json.load` raises, caught by the bare `except`), or a record. -/
inductive FileData where
  | corrupt
  | record (r : CacheRecord)
deriving Repr, DecidableEq

/-- statusline.py `get_savecontext_session`, the part after key resolution
(lines 123-138): given the current time in ms and the content of the cache
file (`none` = file absent), return the record read and the content of the
file afterwards.  TTL check: `if now_ms - timestamp > 7200000: os.remove; return None`;
corrupt JSON falls into the bare `except: return None` without touching the file. -/
def get_savecontext_session (now_ms : Int) (file : Option FileData) :
    Option CacheRecord × Option FileData :=
  match file with
  | none => (none, none)
  | some FileData.corrupt => (none, some FileData.corrupt)
  | some (FileData.record r) =>
      if now_ms - r.timestamp > 7200000 then (none, none)
      else (some r, some (FileData.record r))


/-- The token-usage block of an `assistant` transcript event
(`message.usage`), with its three additive components; each component
defaults to 0 when the key is missing (`usage.get(..., 0)`). -/
structure Usage where
  input_tokens : Int
  cache_read_input_tokens : Int
  cache_creation_input_tokens : Int
deriving Repr, DecidableEq

/-- One line of the transcript, as `parse_context_from_transcript` classifies
it after `json.loads`:
* `systemCompact p` — a well-formed JSON object with `type == "system"`,
  `subtype == "compact_boundary"` and `compactMetadata.preTokens = p`
  (missing `preTokens` reads as 0).  Any serialization of such an object
  contains the substring `compact_boundary`, so the cheap
  `'compact_boundary' not in line` pre-filter never skips one.
* `assistant u` — a well-formed object with `type == "assistant"`;
  `u = some _` when `message.usage` is a non-empty dict (the `if usage:`
  test), `u = none` when it is missing or empty.
* `other` — any other well-formed JSON object.
* `malformed` — a line on which `json.loads` (or a field access) raises;
  both scan loops `continue` past it. -/
inductive TLine where
  | systemCompact (preTokens : Int)
  | assistant (usage : Option Usage)
  | other
  | malformed
deriving Repr, DecidableEq

/-- The contribution of one line to `all_pre_tokens`: its `preTokens` when it
is a well-formed `compact_boundary` system event with `pre_tokens > 0`. -/
def preOfLine : TLine → Option Int
  | TLine.systemCompact p => if p > 0 then some p else none
  | _ => none

/-- The `all_pre_tokens` list: `preTokens` of every well-formed
`compact_boundary` system event, kept only `if pre_tokens > 0`. -/
def collectPreTokens (lines : List TLine) : List Int :=
  lines.filterMap preOfLine

/-- Insertion of one element into a sorted list (helper for `pysorted`). -/
def insort (x : Int) : List Int → List Int
  | [] => [x]
  | y :: ys => if x ≤ y then x :: y :: ys else y :: insort x ys

/-- Python's `sorted()` on a list of integers: ascending order.  Implemented
as insertion sort; on integers the sorted list is determined by the multiset
of values, so this agrees with Python's (stable) Timsort. -/
def pysorted (l : List Int) : List Int := l.foldr insort []

/-- statusline.py lines 169-177: the threshold is `None` for an empty
collection; otherwise with `mid = len // 2`, an even-length list yields
`(sorted[mid-1] + sorted[mid]) // 2` (Python `//` is floor division,
`Int.fdiv`) and an odd-length one yields `sorted[mid]`.  The `getD _ 0`
defaults are never hit: both indices are in range whenever this is called
on a non-empty list. -/
def computeThreshold (toks : List Int) : Option Int :=
  match toks with
  | [] => none
  | _ :: _ =>
    let sorted_tokens := pysorted toks
    let mid := sorted_tokens.length / 2
    if sorted_tokens.length % 2 = 0 then
      some ((sorted_tokens.getD (mid - 1) 0 + sorted_tokens.getD mid 0).fdiv 2)
    else
      some (sorted_tokens.getD mid 0)

/-- The full-file threshold scan of `parse_context_from_transcript`. -/
def thresholdOfLines (lines : List TLine) : Option Int :=
  computeThreshold (collectPreTokens lines)

/-- `input_tokens + cache_read + cache_creation` (statusline.py line 190). -/
def usageTotal (u : Usage) : Int :=
  u.input_tokens + u.cache_read_input_tokens + u.cache_creation_input_tokens

/-- The derived usage snapshot returned by `parse_context_from_transcript`:
`tokens`, the (optional) threshold, and the (optional) percent.  Percent is
float arithmetic in the source, modelled exactly over `ℚ`. -/
structure ContextInfo where
  tokens : Int
  threshold : Option Int
  percent : Option ℚ
deriving Repr, DecidableEq

/-- statusline.py lines 181-203: walk the (already reversed) recent lines,
return at the first well-formed `assistant` event with a non-empty usage
block whose `total_tokens > 0`; `if threshold:` (None and 0 falsy) guards the
percent `min(100, (total/threshold)*100)`. -/
def findUsageLoop (threshold : Option Int) : List TLine → Option ContextInfo
  | [] => none
  | l :: rest =>
    match l with
    | TLine.assistant (some u) =>
        if usageTotal u > 0 then
          some { tokens := usageTotal u
                 threshold := threshold
                 percent :=
                   match threshold with
                   | some t =>
                       if t ≠ 0 then some (min 100 ((usageTotal u : ℚ) / (t : ℚ) * 100))
                       else none
                   | none => none }
        else findUsageLoop threshold rest
    | _ => findUsageLoop threshold rest

/-- statusline.py `parse_context_from_transcript` on the decoded line list:
full-file threshold scan, then the usage scan over
`lines[-30:] if len(lines) > 30 else lines`, newest first. -/
def parse_context_from_transcript (lines : List TLine) : Option ContextInfo :=
  let threshold := thresholdOfLines lines
  let recent := if lines.length > 30 then lines.drop (lines.length - 30) else lines
  findUsageLoop threshold recent.reverse

/-- What the usage scan extracts from one line: the positive token total of a
well-formed `assistant` event with a non-empty usage block, `none` otherwise.
Used to state the usage scan as a single `findSome?` over the reversed tail. -/
def usageOfLine : TLine → Option Int
  | TLine.assistant (some u) => if usageTotal u > 0 then some (usageTotal u) else none
  | _ => none

/-- Modelled from the spec's words (the claimed property, for comparison with
`computeThreshold`): the median of the collected values — middle value of the
sorted list for an odd count, the exact average (over `ℚ`) of the two central
values for an even count. -/
def medianSpec (l : List Int) : Option ℚ :=
  match l with
  | [] => none
  | _ :: _ =>
    let s := pysorted l
    let n := s.length
    if n % 2 = 0 then some (((s.getD (n / 2 - 1) 0 + s.getD (n / 2) 0 : Int) : ℚ) / 2)
    else some ((s.getD (n / 2) 0 : Int) : ℚ)


/-- Python truthiness of an optional string field: `None` and `""` are falsy. -/
def tstr : Option String → Bool
  | none => false
  | some s => s ≠ ""

/-- The fields of a parsed tool-response `data` dict that
`extract_session_info` probes, each `none` when the key is absent. -/
structure ToolData where
  current_session_id : Option String
  session_name : Option String
  project_path : Option String
  item_count : Option Int
  status : Option String
  id : Option String
  name : Option String
  session_id : Option String
  new_name : Option String
  current_session : Option String
  items_restored : Option Int
deriving Repr, DecidableEq

/-- A JSON value in a tool-response position after decoding: an object with
its `success` truthiness, its optional `data` field (read as a data dict),
and its own fields read as a data dict (used when `data` is absent); or a
non-object value. -/
inductive JsonParsed where
  | obj (success : Bool) (dataField : Option ToolData) (selfData : ToolData)
  | nonObj
deriving Repr, DecidableEq

/-- The `tool_response` shapes `parse_tool_response` distinguishes:
`textWrapped inner` is the Claude Code format `[{"type":"text","text":...}]`
with `inner = none` when the inner text is invalid JSON; `bare v` is a
response that is already a JSON value; `absent` is anything else (missing
response, a bare string, a list without a text wrapper, ...). -/
inductive ToolResponse where
  | textWrapped (inner : Option JsonParsed)
  | bare (v : JsonParsed)
  | absent
deriving Repr, DecidableEq

/-- update-status-cache.py `parse_tool_response` (lines 127-150): unwrap the
text wrapper (invalid inner JSON → `None`); require a dict; require a truthy
`success`; unwrap the `data` field if present, else return the object
itself. -/
def parse_tool_response (tool_response : ToolResponse) : Option ToolData :=
  let decoded : Option JsonParsed :=
    match tool_response with
    | ToolResponse.textWrapped inner => inner
    | ToolResponse.bare v => some v
    | ToolResponse.absent => none
  match decoded with
  | none => none
  | some JsonParsed.nonObj => none
  | some (JsonParsed.obj success dataField selfData) =>
      if success then
        match dataField with
        | some d => some d
        | none => some selfData
      else none

/-- The mutation intents `extract_session_info` can produce: a full record
upsert (timestamp stamped later by `update_cache`), a clear, or an
`itemCount` delta. -/
inductive SessionInfo where
  | upsert (sessionId sessionName projectPath : String) (itemCount : Int)
      (sessionStatus provider : String)
  | clear
  | updateItemCount (delta : Int)
deriving Repr, DecidableEq

/-- The explicit ignore-list of read-only checkpoint tools
(update-status-cache.py lines 286-294). -/
def checkpoint_readonly_tools : List String :=
  ["mcp__savecontext__context_list_checkpoints",
   "mcp__savecontext__context_get_checkpoint",
   "mcp__savecontext__context_checkpoint_add_items",
   "mcp__savecontext__context_checkpoint_remove_items",
   "mcp__savecontext__context_checkpoint_split",
   "mcp__savecontext__context_checkpoint_delete",
   "mcp__savecontext__context_tag"]

/-- update-status-cache.py `extract_session_info` (lines 153-298): dispatch
on the tool name; `if not data: return None` covers a `None` data dict
(a falsy non-`None` dict is also rejected there, which only makes more
events no-ops).  Falsy session ids fall through every `if` to the final
`return None`. -/
def extract_session_info (tool_name : String) (data : Option ToolData) (cwd : String) :
    Option SessionInfo :=
  match data with
  | none => none
  | some d =>
    if tool_name = "mcp__savecontext__context_status" then
      if tstr d.current_session_id then
        some (SessionInfo.upsert (d.current_session_id.getD "")
          (d.session_name.getD "") (d.project_path.getD cwd)
          (d.item_count.getD 0) (d.status.getD "active") "claude-code")
      else some SessionInfo.clear
    else if tool_name = "mcp__savecontext__context_session_start" then
      if tstr d.id then
        some (SessionInfo.upsert (d.id.getD "") (d.name.getD "")
          (d.project_path.getD cwd) 0 (d.status.getD "active") "claude-code")
      else none
    else if tool_name = "mcp__savecontext__context_session_resume" then
      if tstr d.session_id then
        some (SessionInfo.upsert (d.session_id.getD "") (d.session_name.getD "")
          (d.project_path.getD cwd) (d.item_count.getD 0) "active" "claude-code")
      else none
    else if tool_name = "mcp__savecontext__context_session_switch" then
      if tstr d.session_id then
        some (SessionInfo.upsert (d.session_id.getD "") (d.current_session.getD "")
          (d.project_path.getD cwd) (d.item_count.getD 0) "active" "claude-code")
      else none
    else if tool_name = "mcp__savecontext__context_session_rename" then
      if tstr d.session_id ∧ tstr d.new_name then
        some (SessionInfo.upsert (d.session_id.getD "") (d.new_name.getD "")
          cwd 0 "active" "claude-code")
      else none
    else if tool_name = "mcp__savecontext__context_session_pause" then
      some SessionInfo.clear
    else if tool_name = "mcp__savecontext__context_session_end" then
      some SessionInfo.clear
    else if tool_name = "mcp__savecontext__context_prepare_compaction" then
      if tstr d.session_id then
        some (SessionInfo.upsert (d.session_id.getD "") (d.session_name.getD "")
          (d.project_path.getD cwd) (d.item_count.getD 0) "active" "claude-code")
      else none
    else if tool_name = "mcp__savecontext__context_save" then
      some (SessionInfo.updateItemCount 1)
    else if tool_name = "mcp__savecontext__context_delete" then
      some (SessionInfo.updateItemCount (-1))
    else if tool_name = "mcp__savecontext__context_checkpoint" then
      if tstr d.session_id then
        some (SessionInfo.upsert (d.session_id.getD "") (d.session_name.getD "")
          (d.project_path.getD cwd) (d.item_count.getD 0) "active" "claude-code")
      else none
    else if tool_name = "mcp__savecontext__context_restore" then
      if tstr d.session_id then
        some (SessionInfo.upsert (d.session_id.getD "") (d.session_name.getD "")
          (d.project_path.getD cwd) (d.items_restored.getD 0) "active" "claude-code")
      else none
    else if tool_name ∈ checkpoint_readonly_tools then
      none
    else none

/-- Content of the temp sibling `.<key>.tmp`: partially written JSON (the
`json.dump` is not atomic) or a complete serialized record. -/
inductive TempData where
  | partialWrite
  | full (r : CacheRecord)
deriving Repr, DecidableEq

/-- The per-key slice of the cache directory: content of `<key>.json` and of
the temp sibling, `none` meaning the file does not exist. -/
structure CacheState where
  cacheFile : Option FileData
  tempFile : Option TempData
deriving Repr, DecidableEq

/-- Failure injection for the filesystem operations that `update_cache`
wraps in `try/except`: reading the existing record on the delta path, the
temp-file write, and the rename.  (`mkdir` failure propagates as an
exception to the caller and is outside `update_cache`'s boolean result.) -/
structure FsFail where
  readFails : Bool
  writeTempFails : Bool
  renameFails : Bool
deriving Repr, DecidableEq

def noFail : FsFail := ⟨false, false, false⟩

/-- The write tail of `update_cache` (lines 334-342): write the temp file,
rename it over the destination; on either exception unlink the temp file and
return `False`. -/
def write_record (fl : FsFail) (st : CacheState) (r : CacheRecord) :
    Bool × CacheState :=
  if fl.writeTempFails then (false, { st with tempFile := none })
  else if fl.renameFails then (false, { st with tempFile := none })
  else (true, { cacheFile := some (FileData.record r), tempFile := none })

/-- update-status-cache.py `update_cache` (lines 301-342) on the per-key
state: clear unlinks the cache file; a delta on a missing file is a no-op
returning `True`; a delta on an unreadable/corrupt file returns `False`;
otherwise the merged (or upserted) record is stamped with `now` and written
through the temp file. -/
def update_cache (fl : FsFail) (now : Int) (st : CacheState) (info : SessionInfo) :
    Bool × CacheState :=
  match info with
  | SessionInfo.clear => (true, { st with cacheFile := none })
  | SessionInfo.updateItemCount delta =>
      match st.cacheFile with
      | none => (true, st)
      | some FileData.corrupt => (false, st)
      | some (FileData.record r) =>
          if fl.readFails then (false, st)
          else write_record fl st
            { r with itemCount := max 0 (r.itemCount + delta), timestamp := now }
  | SessionInfo.upsert sid sname ppath icount sstatus prov =>
      write_record fl st
        { sessionId := sid, sessionName := sname, projectPath := ppath,
          itemCount := icount, sessionStatus := sstatus, provider := prov,
          timestamp := now }

/-- One hook invocation of update-status-cache.py `main` (lines 345-376) on
the per-key state: ignore tools outside the `mcp__savecontext__` namespace,
parse the response, extract a mutation intent, and apply it when a status
key resolved; in every other case the state is untouched. -/
def hookStep (tool_name : String) (resp : ToolResponse) (cwd : String)
    (key : Option String) (fl : FsFail) (now : Int) (st : CacheState) : CacheState :=
  if ¬ tool_name.startsWith "mcp__savecontext__" then st
  else
    match extract_session_info tool_name (parse_tool_response resp) cwd with
    | none => st
    | some info =>
        match key with
        | none => st
        | some _ => (update_cache fl now st info).2

/-- The cache filename stem layout: `<key>.json` and its dot-prefixed temp
sibling `.<key>.tmp` (update-status-cache.py lines 306-307). -/
def cache_file_name (key : String) : String := key ++ ".json"

def temp_file_name (key : String) : String := "." ++ key ++ ".tmp"

/-- The sequence of per-key filesystem states a successful `put` passes
through: initial, temp partially written, temp complete, renamed.  Each
transition is one filesystem operation; the rename is the only one that
touches `<key>.json`. -/
def put_trace (st : CacheState) (r : CacheRecord) : List CacheState :=
  [st,
   { st with tempFile := some TempData.partialWrite },
   { st with tempFile := some (TempData.full r) },
   { cacheFile := some (FileData.record r), tempFile := none }]


/-- A response payload that is malformed in the sense of the spec: invalid
JSON inside the text wrapper, a non-object result (including an absent or
non-dict response), or a falsy `success` flag. -/
def malformedResp : ToolResponse → Bool
  | ToolResponse.textWrapped none => true
  | ToolResponse.textWrapped (some JsonParsed.nonObj) => true
  | ToolResponse.textWrapped (some (JsonParsed.obj s _ _)) => !s
  | ToolResponse.bare JsonParsed.nonObj => true
  | ToolResponse.bare (JsonParsed.obj s _ _) => !s
  | ToolResponse.absent => true

/-- The characters replaced by `_` in `re.sub(r'[/\\:*?"<>| ]', '_', key)`. -/
def badChars : List Char :=
  ['/', '\\', ':', '*', '?', '"', '<', '>', '|', ' ']

/-- Key sanitization, both scripts: every path-unsafe character becomes `_`,
then the result is truncated to 100 characters (`[:100]`). -/
def sanitize (s : String) : String :=
  ⟨(s.data.map (fun c => if c ∈ badChars then '_' else c)).take 100⟩

/-- The process environment and OS facts the key resolvers read.  Env vars
are `String` with `""` for unset (Python's `os.environ.get` result is falsy
in both cases at every use site); `tty` is the stripped output of the
`ps -o tty= -p PPID` query, `""` when the query failed or timed out. -/
structure Env where
  savecontext_status_key : String
  system : String
  release_has_microsoft : Bool
  wt_session : String
  conemu_pid : String
  conemu_server_pid : String
  sessionname : String
  ppid : Int
  tty : String
  term_session_id : String
  iterm_session_id : String
  gnome_terminal_service : String
  konsole_dbus_session : String
  tilix_id : String
  kitty_pid : String
  alacritty_socket : String
deriving Repr, DecidableEq

def Env.is_windows (e : Env) : Bool := e.system == "Windows"

def Env.is_wsl (e : Env) : Bool := (e.system == "Linux") && e.release_has_microsoft

/-- The Windows-family branch (both scripts, identical): Windows Terminal
GUID, ConEmu/Cmder pid (`ConEmuPID or ConEmuServerPID`), session name with
parent pid, then the pid fallback guarded by `if ppid:`; `""` when nothing
fired. -/
def windows_key (e : Env) : String :=
  if e.wt_session ≠ "" then "wt-" ++ e.wt_session
  else
    let conemu := if e.conemu_pid ≠ "" then e.conemu_pid else e.conemu_server_pid
    if conemu ≠ "" then "conemu-" ++ conemu
    else if e.sessionname ≠ "" then
      "win-" ++ e.sessionname ++ "-" ++ toString e.ppid
    else if e.ppid ≠ 0 then
      (if e.is_wsl then "wslpid-" else "winpid-") ++ toString e.ppid
    else ""

/-- The POSIX-family branch (both scripts, identical): parent TTY excluding
the sentinel values, then the terminal-emulator env vars in fixed priority,
then the pid fallback. -/
def posix_key (e : Env) : String :=
  if e.tty ≠ "" ∧ e.tty ≠ "?" ∧ e.tty ≠ "??" ∧ e.tty ≠ "-" then "tty-" ++ e.tty
  else if e.term_session_id ≠ "" then "term-" ++ e.term_session_id
  else if e.iterm_session_id ≠ "" then "iterm-" ++ e.iterm_session_id
  else if e.gnome_terminal_service ≠ "" then "gnome-" ++ toString e.ppid
  else if e.konsole_dbus_session ≠ "" then "konsole-" ++ toString e.ppid
  else if e.tilix_id ≠ "" then "tilix-" ++ e.tilix_id
  else if e.kitty_pid ≠ "" then "kitty-" ++ e.kitty_pid
  else if e.alacritty_socket ≠ "" then "alacritty-" ++ toString e.ppid
  else (if e.system == "Linux" then "linuxpid-" else "macpid-") ++ toString e.ppid

/-- The platform scan shared by both scripts (after the override check):
Windows-family branch when `is_windows or is_wsl`, then the POSIX branch
when still unset and `system in ('Darwin', 'Linux')`. -/
def resolve_platform_key (e : Env) : String :=
  let k1 := if e.is_windows || e.is_wsl then windows_key e else ""
  if k1 = "" ∧ (e.system = "Darwin" ∨ e.system = "Linux") then posix_key e else k1

/-- update-status-cache.py `get_status_key`: the explicit override is
sanitized and returned at once; otherwise the platform scan result is
sanitized, or `None` when nothing resolved. -/
def get_status_key (e : Env) : Option String :=
  if e.savecontext_status_key ≠ "" then some (sanitize e.savecontext_status_key)
  else
    let k := resolve_platform_key e
    if k = "" then none else some (sanitize k)

/-- statusline.py `get_savecontext_session` key resolution (lines 24-120):
the override variable pre-loads `status_key` and every platform branch is
guarded by `not status_key`; the single `re.sub(...)[:100]` at line 120
sanitizes whichever value won. -/
def statusline_status_key (e : Env) : Option String :=
  let k0 := e.savecontext_status_key
  let k := if k0 = "" then resolve_platform_key e else k0
  if k = "" then none else some (sanitize k)

theorem mem_insort (x a : Int) : ∀ (l : List Int), x ∈ insort a l ↔ x = a ∨ x ∈ l
  | [] => by simp [insort]
  | y :: ys => by
    simp only [insort]
    by_cases h : a ≤ y
    · simp [h]
    · rw [if_neg h]
      simp only [List.mem_cons, mem_insort x a ys]
      tauto

theorem mem_pysorted (x : Int) : ∀ (l : List Int), x ∈ pysorted l ↔ x ∈ l
  | [] => by simp [pysorted]
  | a :: l => by
    have h : pysorted (a :: l) = insort a (pysorted l) := rfl
    rw [h, mem_insort]
    simp [mem_pysorted x l]

theorem length_insort (a : Int) : ∀ (l : List Int), (insort a l).length = l.length + 1
  | [] => rfl
  | y :: ys => by
    simp only [insort]
    by_cases h : a ≤ y
    · simp [h]
    · simp [h, length_insort a ys]

theorem length_pysorted : ∀ (l : List Int), (pysorted l).length = l.length
  | [] => rfl
  | a :: l => by
    have h : pysorted (a :: l) = insort a (pysorted l) := rfl
    rw [h, length_insort, length_pysorted l]
    simp

theorem getD_mem {l : List Int} {n : ℕ} (h : n < l.length) : l.getD n 0 ∈ l := by
  rw [List.getD_eq_getElem?_getD, List.getElem?_eq_getElem h]
  exact List.getElem_mem h

theorem collectPreTokens_pos (lines : List TLine) :
    ∀ x ∈ collectPreTokens lines, 0 < x := by
  intro x hx
  simp only [collectPreTokens, List.mem_filterMap] at hx
  obtain ⟨l, -, hl⟩ := hx
  cases l with
  | systemCompact p =>
    simp only [preOfLine] at hl
    by_cases hp : p > 0
    · rw [if_pos hp] at hl
      cases hl
      exact hp
    · rw [if_neg hp] at hl
      cases hl
  | assistant u =>
    simp only [preOfLine] at hl
    cases hl
  | other =>
    simp only [preOfLine] at hl
    cases hl
  | malformed =>
    simp only [preOfLine] at hl
    cases hl

/-- The code's threshold is the floor of the spec's median. -/
theorem computeThreshold_eq_floor_median (toks : List Int) :
    computeThreshold toks = (medianSpec toks).map (fun q => ⌊q⌋) := by
  cases toks with
  | nil => rfl
  | cons a l =>
    simp only [computeThreshold, medianSpec, Option.map]
    by_cases h : (pysorted (a :: l)).length % 2 = 0
    · simp only [h, if_pos]
      have h2 : ((2 : ℕ) : ℚ) = (2 : ℚ) := by norm_num
      rw [← h2, Rat.floor_intCast_div_natCast,
        Int.fdiv_eq_ediv _ (by norm_num : (0 : Int) ≤ 2)]
      norm_num
    · simp [h, Int.floor_intCast]

theorem computeThreshold_pos {toks : List Int} (hpos : ∀ x ∈ toks, 0 < x)
    {t : Int} (ht : computeThreshold toks = some t) : 0 < t := by
  cases toks with
  | nil => simp [computeThreshold] at ht
  | cons a l =>
    have hmem : ∀ x ∈ pysorted (a :: l), 0 < x :=
      fun x hx => hpos x ((mem_pysorted x _).1 hx)
    have hlen : (pysorted (a :: l)).length = l.length + 1 := by
      rw [length_pysorted]
      simp
    simp only [computeThreshold] at ht
    by_cases h : (pysorted (a :: l)).length % 2 = 0
    · rw [if_pos h] at ht
      have hx : ((pysorted (a :: l)).getD ((pysorted (a :: l)).length / 2 - 1) 0) ∈
          pysorted (a :: l) := getD_mem (by omega)
      have hy : ((pysorted (a :: l)).getD ((pysorted (a :: l)).length / 2) 0) ∈
          pysorted (a :: l) := getD_mem (by omega)
      have hx' := hmem _ hx
      have hy' := hmem _ hy
      have ht' := Option.some.inj ht
      rw [Int.fdiv_eq_ediv _ (by norm_num : (0 : Int) ≤ 2)] at ht'
      omega
    · rw [if_neg h] at ht
      have hx : ((pysorted (a :: l)).getD ((pysorted (a :: l)).length / 2) 0) ∈
          pysorted (a :: l) := getD_mem (by omega)
      have := hmem _ hx
      have ht' := Option.some.inj ht
      omega

theorem thresholdOfLines_pos {lines : List TLine} {t : Int}
    (ht : thresholdOfLines lines = some t) : 0 < t :=
  computeThreshold_pos (collectPreTokens_pos lines) ht

theorem findUsageLoop_tokens (th : Option Int) :
    ∀ (l : List TLine),
      Option.map ContextInfo.tokens (findUsageLoop th l) = l.findSome? usageOfLine
  | [] => by simp [findUsageLoop]
  | x :: rest => by
    cases x with
    | assistant u =>
      cases u with
      | some v =>
        by_cases h : usageTotal v > 0
        · simp [findUsageLoop, usageOfLine, h, List.findSome?_cons]
        · simp [findUsageLoop, usageOfLine, h, List.findSome?_cons,
            findUsageLoop_tokens th rest]
      | none =>
        simp [findUsageLoop, usageOfLine, List.findSome?_cons,
          findUsageLoop_tokens th rest]
    | systemCompact p =>
      simp [findUsageLoop, usageOfLine, List.findSome?_cons,
        findUsageLoop_tokens th rest]
    | other =>
      simp [findUsageLoop, usageOfLine, List.findSome?_cons,
        findUsageLoop_tokens th rest]
    | malformed =>
      simp [findUsageLoop, usageOfLine, List.findSome?_cons,
        findUsageLoop_tokens th rest]

theorem findUsageLoop_shape (th : Option Int) :
    ∀ (l : List TLine) (info : ContextInfo), findUsageLoop th l = some info →
      info.threshold = th ∧
      info.percent = (match th with
        | some t => if t ≠ 0 then some (min 100 ((info.tokens : ℚ) / (t : ℚ) * 100))
                    else none
        | none => none)
  | [] => by
    intro info h
    simp [findUsageLoop] at h
  | x :: rest => by
    intro info h
    cases x with
    | assistant u =>
      cases u with
      | some v =>
        by_cases hv : usageTotal v > 0
        · simp only [findUsageLoop, hv, if_pos] at h
          cases h
          exact ⟨rfl, rfl⟩
        · simp only [findUsageLoop, hv, if_neg] at h
          exact findUsageLoop_shape th rest info h
      | none =>
        simp only [findUsageLoop] at h
        exact findUsageLoop_shape th rest info h
    | systemCompact p =>
      simp only [findUsageLoop] at h
      exact findUsageLoop_shape th rest info h
    | other =>
      simp only [findUsageLoop] at h
      exact findUsageLoop_shape th rest info h
    | malformed =>
      simp only [findUsageLoop] at h
      exact findUsageLoop_shape th rest info h

theorem drop_append_add (k : ℕ) : ∀ (l₁ l₂ : List TLine),
    (l₁ ++ l₂).drop (l₁.length + k) = l₂.drop k
  | [], l₂ => by simp
  | a :: l₁, l₂ => by
    simp only [List.cons_append, List.length_cons]
    have h : l₁.length + 1 + k = (l₁.length + k) + 1 := by omega
    rw [h, List.drop_succ_cons, drop_append_add k l₁ l₂]

theorem recent_eq_drop (lines : List TLine) :
    (if lines.length > 30 then lines.drop (lines.length - 30) else lines) =
      lines.drop (lines.length - 30) := by
  by_cases h : lines.length > 30
  · rw [if_pos h]
  · rw [if_neg h]
    have h0 : lines.length - 30 = 0 := by omega
    rw [h0, List.drop_zero]

/-- C1: a `get` on a record strictly older than 7,200,000 ms returns absent
and removes the file; a record at most 7,199,999 ms old is returned
unchanged with the file intact; corrupt JSON is treated as absent with no
error propagating (the function still returns a pair). -/
theorem get_ttl_expiry (now_ms : Int) (r : CacheRecord) :
    (now_ms - r.timestamp > 7200000 →
      get_savecontext_session now_ms (some (FileData.record r)) = (none, none)) ∧
    (now_ms - r.timestamp ≤ 7199999 →
      get_savecontext_session now_ms (some (FileData.record r)) =
        (some r, some (FileData.record r))) ∧
    get_savecontext_session now_ms (some FileData.corrupt) =
      (none, some FileData.corrupt) := by
  refine ⟨fun h => ?_, fun h => ?_, rfl⟩
  · simp [get_savecontext_session, h]
  · simp [get_savecontext_session]
    omega

/-- Witness for `get_ttl_expiry` at concrete inputs: a record 7,200,001 ms old
is expired and removed; a record 7,199,999 ms old is returned unchanged. -/
theorem get_ttl_expiry_witness :
    (get_savecontext_session 7200002
        (some (FileData.record ⟨"s", "n", "p", 0, "active", "claude-code", 1⟩)) =
      (none, none)) ∧
    (get_savecontext_session 7200000
        (some (FileData.record ⟨"s", "n", "p", 0, "active", "claude-code", 1⟩)) =
      (some ⟨"s", "n", "p", 0, "active", "claude-code", 1⟩,
       some (FileData.record ⟨"s", "n", "p", 0, "active", "claude-code", 1⟩))) :=
  ⟨(get_ttl_expiry 7200002 ⟨"s", "n", "p", 0, "active", "claude-code", 1⟩).1 (by decide),
   (get_ttl_expiry 7200000 ⟨"s", "n", "p", 0, "active", "claude-code", 1⟩).2.1 (by decide)⟩


/-- C2 counterexample: on collected `preTokens` `[100, 301]` the code's
threshold is 200, while the average of the two central values is 401/2,
which 200 is not — so the threshold does not equal the exact average for
every even-count collection. -/
theorem threshold_median_counterexample :
    thresholdOfLines [TLine.systemCompact 100, TLine.systemCompact 301] = some 200 ∧
    medianSpec (collectPreTokens [TLine.systemCompact 100, TLine.systemCompact 301]) =
      some ((401 : ℚ) / 2) ∧
    ((200 : Int) : ℚ) ≠ (401 : ℚ) / 2 := by
  refine ⟨by decide, ?_, by norm_num⟩
  norm_num [medianSpec, collectPreTokens, preOfLine, pysorted, insort, List.filterMap]

/-- C2 (amended): the Extractor's threshold is the median of the positive
`preTokens` values of the well-formed `compact_boundary` system events, with
the average of the two central values rounded down (floor) for an even
count; in particular `[100, 300, 200]` yields 200 and `[100, 300]` yields
200. -/
theorem threshold_is_floor_median :
    (∀ lines : List TLine,
      thresholdOfLines lines =
        (medianSpec (collectPreTokens lines)).map (fun q => ⌊q⌋)) ∧
    thresholdOfLines [TLine.systemCompact 100, TLine.systemCompact 300,
      TLine.systemCompact 200] = some 200 ∧
    thresholdOfLines [TLine.systemCompact 100, TLine.systemCompact 300] = some 200 :=
  ⟨fun _ => computeThreshold_eq_floor_median _, by decide, by decide⟩

/-- C3: the usage computation looks only at the last 30 lines, newest first,
and returns the token total of the first well-formed assistant event with a
strictly positive component sum (zero-sum events are skipped, and the result
is absent when no such event is in the window); prepending lines before a
30-line tail never changes the reported token count. -/
theorem usage_tail_window (lines : List TLine) :
    Option.map ContextInfo.tokens (parse_context_from_transcript lines) =
      (lines.drop (lines.length - 30)).reverse.findSome? usageOfLine ∧
    ∀ (pre : List TLine), 30 ≤ lines.length →
      Option.map ContextInfo.tokens (parse_context_from_transcript (pre ++ lines)) =
        Option.map ContextInfo.tokens (parse_context_from_transcript lines) := by
  have key : ∀ (ls : List TLine),
      Option.map ContextInfo.tokens (parse_context_from_transcript ls) =
        (ls.drop (ls.length - 30)).reverse.findSome? usageOfLine := by
    intro ls
    show Option.map ContextInfo.tokens
        (findUsageLoop (thresholdOfLines ls)
          (if ls.length > 30 then ls.drop (ls.length - 30) else ls).reverse) = _
    rw [recent_eq_drop, findUsageLoop_tokens]
  refine ⟨key lines, fun pre h30 => ?_⟩
  rw [key (pre ++ lines), key lines]
  have harith : (pre ++ lines).length - 30 = pre.length + (lines.length - 30) := by
    rw [List.length_append]
    omega
  rw [harith, drop_append_add]

/-- Witness for `usage_tail_window`: an assistant event placed before a
30-line tail is not scanned — the reported token count equals that of the
tail alone. -/
theorem usage_tail_window_witness :
    Option.map ContextInfo.tokens
        (parse_context_from_transcript
          ([TLine.assistant (some ⟨5, 0, 0⟩)] ++ List.replicate 30 TLine.other)) =
      Option.map ContextInfo.tokens
        (parse_context_from_transcript (List.replicate 30 TLine.other)) :=
  (usage_tail_window (List.replicate 30 TLine.other)).2
    [TLine.assistant (some ⟨5, 0, 0⟩)] (by decide)

/-- C6: whenever the Extractor returns a snapshot, a present threshold gives
`percent = min(100, 100 * total / threshold)` and an absent threshold gives
an absent percent with only the raw token count reported. -/
theorem percent_formula (lines : List TLine) (info : ContextInfo)
    (h : parse_context_from_transcript lines = some info) :
    (∀ t : Int, info.threshold = some t →
        info.percent = some (min 100 (100 * (info.tokens : ℚ) / (t : ℚ)))) ∧
    (info.threshold = none → info.percent = none) := by
  have h' : findUsageLoop (thresholdOfLines lines)
      (if lines.length > 30 then lines.drop (lines.length - 30) else lines).reverse =
        some info := h
  have hs := findUsageLoop_shape _ _ info h'
  constructor
  · intro t ht
    have hth : thresholdOfLines lines = some t := by rw [← hs.1, ht]
    have hpos : (0 : Int) < t := thresholdOfLines_pos hth
    rw [hth] at hs
    rw [hs.2]
    simp only []
    rw [if_pos (by omega : t ≠ 0)]
    have harr : (info.tokens : ℚ) / (t : ℚ) * 100 = 100 * (info.tokens : ℚ) / (t : ℚ) := by
      ring
    rw [harr]
  · intro hnone
    have hth : thresholdOfLines lines = none := by rw [← hs.1, hnone]
    rw [hth] at hs
    rw [hs.2]

/-- Witness for `percent_formula`: tokens 850 against threshold 1000 report
85 percent, and the formula instance from the theorem. -/
theorem percent_formula_witness :
    parse_context_from_transcript
        [TLine.systemCompact 1000, TLine.assistant (some ⟨850, 0, 0⟩)] =
      some ⟨850, some 1000, some 85⟩ ∧
    (⟨850, some 1000, some 85⟩ : ContextInfo).percent =
      some (min 100 (100 * ((850 : Int) : ℚ) / ((1000 : Int) : ℚ))) := by
  have hp : parse_context_from_transcript
      [TLine.systemCompact 1000, TLine.assistant (some ⟨850, 0, 0⟩)] =
      some ⟨850, some 1000, some 85⟩ := by
    have h : thresholdOfLines
        [TLine.systemCompact 1000, TLine.assistant (some ⟨850, 0, 0⟩)] =
          some 1000 := by decide
    show findUsageLoop (thresholdOfLines
        [TLine.systemCompact 1000, TLine.assistant (some ⟨850, 0, 0⟩)]) _ = _
    rw [h]
    norm_num [findUsageLoop, usageTotal, min_def]
  exact ⟨hp, (percent_formula _ _ hp).1 1000 rfl⟩

/-- C7 counterexample: the Renderer is not strictly read-only — reading an
expired record removes the backing cache file. -/
theorem renderer_readonly_counterexample :
    (get_savecontext_session 7200002
        (some (FileData.record ⟨"s", "n", "p", 0, "active", "claude-code", 1⟩))).2 ≠
      some (FileData.record ⟨"s", "n", "p", 0, "active", "claude-code", 1⟩) := by
  decide

/-- C7 (amended): the Renderer never creates a cache file and never writes
new content; absent files, corrupt files, and unexpired records are left
unchanged, and its only mutation is removing a record whose TTL has expired
during `get` (the documented lazy expiry). -/
theorem renderer_mutation_only_expiry (now_ms : Int) (file : Option FileData) :
    ((get_savecontext_session now_ms file).2 = file ∨
      (get_savecontext_session now_ms file).2 = none) ∧
    (file = none → (get_savecontext_session now_ms file).2 = none) ∧
    (file = some FileData.corrupt →
      (get_savecontext_session now_ms file).2 = file) ∧
    (∀ r, file = some (FileData.record r) →
      ((get_savecontext_session now_ms file).2 ≠ file ↔
        now_ms - r.timestamp > 7200000)) := by
  cases file with
  | none =>
    refine ⟨Or.inl rfl, ?_, ?_, ?_⟩
    · intro _
      rfl
    · intro hc
      simp at hc
    · intro r hr
      simp at hr
  | some fd =>
    cases fd with
    | corrupt =>
      refine ⟨Or.inl rfl, ?_, ?_, ?_⟩
      · intro hn
        simp at hn
      · intro _
        rfl
      · intro r hr
        simp at hr
    | record r =>
      by_cases h : now_ms - r.timestamp > 7200000
      · refine ⟨Or.inr ?_, ?_, ?_, ?_⟩
        · simp [get_savecontext_session, h]
        · intro hn
          simp at hn
        · intro hc
          simp at hc
        · intro r' hr'
          simp only [Option.some.injEq, FileData.record.injEq] at hr'
          subst hr'
          refine ⟨fun _ => h, fun _ => ?_⟩
          simp [get_savecontext_session, h]
      · refine ⟨Or.inl ?_, ?_, ?_, ?_⟩
        · simp [get_savecontext_session, h]
        · intro hn
          simp at hn
        · intro hc
          simp at hc
        · intro r' hr'
          simp only [Option.some.injEq, FileData.record.injEq] at hr'
          subst hr'
          refine ⟨fun hne => absurd ?_ hne, fun hexp => absurd hexp h⟩
          simp [get_savecontext_session, h]

/-- Witness for `renderer_mutation_only_expiry`: a corrupt cache file is
left unchanged by the Renderer, and on an absent file it leaves the file
system empty. -/
theorem renderer_mutation_only_expiry_witness :
    (get_savecontext_session 5 (some FileData.corrupt)).2 =
      some FileData.corrupt ∧
    (get_savecontext_session 5 none).2 = none :=
  ⟨(renderer_mutation_only_expiry 5 (some FileData.corrupt)).2.2.1 rfl,
   (renderer_mutation_only_expiry 5 none).2.1 rfl⟩


/-- C4: a delta on a missing record is a no-op that creates no file and
reports success; a delta on an existing record (with no filesystem failure)
sets the new `itemCount` to `max(0, old + delta)`, preserving the other
fields and stamping the timestamp. -/
theorem delta_mutation (fl : FsFail) (now : Int) (st : CacheState)
    (delta : Int) (r : CacheRecord) :
    (st.cacheFile = none →
      update_cache fl now st (SessionInfo.updateItemCount delta) = (true, st)) ∧
    (st.cacheFile = some (FileData.record r) →
      update_cache noFail now st (SessionInfo.updateItemCount delta) =
        (true, ⟨some (FileData.record
            { r with itemCount := max 0 (r.itemCount + delta), timestamp := now }),
          none⟩)) := by
  constructor
  · intro h
    simp [update_cache, h]
  · intro h
    simp [update_cache, h, noFail, write_record]

/-- Witness for `delta_mutation`: `itemCount=3` with `+1` yields 4,
`itemCount=0` with `-1` stays 0, and a delta on an absent record leaves the
state empty and succeeds. -/
theorem delta_mutation_witness :
    update_cache noFail 99
        ⟨some (FileData.record ⟨"s", "n", "p", 3, "active", "claude-code", 1⟩), none⟩
        (SessionInfo.updateItemCount 1) =
      (true, ⟨some (FileData.record ⟨"s", "n", "p", 4, "active", "claude-code", 99⟩), none⟩) ∧
    update_cache noFail 99
        ⟨some (FileData.record ⟨"s", "n", "p", 0, "active", "claude-code", 1⟩), none⟩
        (SessionInfo.updateItemCount (-1)) =
      (true, ⟨some (FileData.record ⟨"s", "n", "p", 0, "active", "claude-code", 99⟩), none⟩) ∧
    update_cache noFail 99 (⟨none, none⟩ : CacheState) (SessionInfo.updateItemCount 1) =
      (true, ⟨none, none⟩) := by
  refine ⟨?_, ?_, ?_⟩
  · rw [(delta_mutation noFail 99
      ⟨some (FileData.record ⟨"s", "n", "p", 3, "active", "claude-code", 1⟩), none⟩ 1
      ⟨"s", "n", "p", 3, "active", "claude-code", 1⟩).2 rfl]
    decide
  · rw [(delta_mutation noFail 99
      ⟨some (FileData.record ⟨"s", "n", "p", 0, "active", "claude-code", 1⟩), none⟩ (-1)
      ⟨"s", "n", "p", 0, "active", "claude-code", 1⟩).2 rfl]
    decide
  · exact (delta_mutation noFail 99 ⟨none, none⟩ 1
      ⟨"s", "n", "p", 0, "active", "claude-code", 0⟩).1 rfl

/-- C5: a hook event whose tool is in the read-only list, whose tool is
outside the `mcp__savecontext__` namespace, or whose response payload is
malformed, produces no mutation: the per-key cache state is left exactly as
it was. -/
theorem no_mutation_preserves_state (tool_name : String) (resp : ToolResponse)
    (cwd : String) (key : Option String) (fl : FsFail) (now : Int) (st : CacheState)
    (h : tool_name ∈ checkpoint_readonly_tools ∨
         ¬ tool_name.startsWith "mcp__savecontext__" ∨
         malformedResp resp = true) :
    hookStep tool_name resp cwd key fl now st = st := by
  rcases h with h | h | h
  · have hext : ∀ data, extract_session_info tool_name data cwd = none := by
      intro data
      cases data with
      | none => rfl
      | some d =>
        fin_cases h <;>
          simp [extract_session_info, checkpoint_readonly_tools]
    unfold hookStep
    by_cases hpre : tool_name.startsWith "mcp__savecontext__"
    · simp [hpre, hext]
    · simp [hpre]
  · unfold hookStep
    simp [h]
  · have hparse : parse_tool_response resp = none := by
      cases resp with
      | textWrapped inner =>
        cases inner with
        | none => rfl
        | some v =>
          cases v with
          | nonObj => rfl
          | obj s df sd =>
            simp [malformedResp] at h
            simp [parse_tool_response, h]
      | bare v =>
        cases v with
        | nonObj => rfl
        | obj s df sd =>
          simp [malformedResp] at h
          simp [parse_tool_response, h]
      | absent => rfl
    unfold hookStep
    by_cases hpre : tool_name.startsWith "mcp__savecontext__"
    · simp [hpre, hparse, extract_session_info]
    · simp [hpre]

/-- Witness for `no_mutation_preserves_state`: `context_tag` with a payload
that looks like a valid mutating schema leaves an existing record
byte-identical. -/
theorem no_mutation_preserves_state_witness :
    hookStep "mcp__savecontext__context_tag"
        (ToolResponse.bare (JsonParsed.obj true
          (some ⟨some "sid", some "name", some "/p", some 7, some "active",
            some "sid", some "name", some "sid", some "name", some "name", some 7⟩)
          ⟨none, none, none, none, none, none, none, none, none, none, none⟩))
        "/cwd" (some "key") noFail 99
        ⟨some (FileData.record ⟨"old", "o", "p", 2, "active", "claude-code", 5⟩), none⟩ =
      ⟨some (FileData.record ⟨"old", "o", "p", 2, "active", "claude-code", 5⟩), none⟩ :=
  no_mutation_preserves_state "mcp__savecontext__context_tag" _ "/cwd" (some "key")
    noFail 99 _ (Or.inl (by decide))

/-- C8: a `put` serializes to the dot-prefixed temp sibling and only the
final rename touches the destination: at every intermediate state of the
write, the destination file holds either the previous content or the new
complete record (partial content exists only ever in the temp file). -/
theorem put_atomic_visibility (st : CacheState) (r : CacheRecord) (key : String) :
    (∀ s ∈ put_trace st r,
      s.cacheFile = st.cacheFile ∨ s.cacheFile = some (FileData.record r)) ∧
    (temp_file_name key).data.head? = some '.' := by
  constructor
  · intro s hs
    simp only [put_trace, List.mem_cons, List.mem_singleton] at hs
    rcases hs with rfl | rfl | rfl | rfl | h
    · exact Or.inl rfl
    · exact Or.inl rfl
    · exact Or.inl rfl
    · exact Or.inr rfl
    · cases h
  · show (("." ++ key ++ ".tmp" : String)).data.head? = some '.'
    have hd : (("." ++ key ++ ".tmp" : String)).data =
        '.' :: (key.data ++ ".tmp".data) := by
      simp
    rw [hd]
    rfl

/-- Witness for `put_atomic_visibility`: mid-write (temp partially written)
a reader still sees the previous record. -/
theorem put_atomic_visibility_witness :
    ((⟨some (FileData.record ⟨"a", "b", "c", 1, "active", "claude-code", 5⟩),
        some TempData.partialWrite⟩ : CacheState).cacheFile =
      (⟨some (FileData.record ⟨"a", "b", "c", 1, "active", "claude-code", 5⟩),
        none⟩ : CacheState).cacheFile) ∨
    ((⟨some (FileData.record ⟨"a", "b", "c", 1, "active", "claude-code", 5⟩),
        some TempData.partialWrite⟩ : CacheState).cacheFile =
      some (FileData.record ⟨"z", "z", "z", 9, "active", "claude-code", 9⟩)) :=
  (put_atomic_visibility
      ⟨some (FileData.record ⟨"a", "b", "c", 1, "active", "claude-code", 5⟩), none⟩
      ⟨"z", "z", "z", 9, "active", "claude-code", 9⟩ "k").1
    ⟨some (FileData.record ⟨"a", "b", "c", 1, "active", "claude-code", 5⟩),
      some TempData.partialWrite⟩ (by decide)

/-- C10: whenever `update_cache` reports failure, the destination cache file
is exactly as it was before the call, and the only possible residual effect
is that the temp file was removed. -/
theorem failed_update_preserves_destination (fl : FsFail) (now : Int)
    (st : CacheState) (info : SessionInfo)
    (h : (update_cache fl now st info).1 = false) :
    (update_cache fl now st info).2.cacheFile = st.cacheFile ∧
    ((update_cache fl now st info).2.tempFile = st.tempFile ∨
      (update_cache fl now st info).2.tempFile = none) := by
  have hwr : ∀ (r : CacheRecord), (write_record fl st r).1 = false →
      (write_record fl st r).2.cacheFile = st.cacheFile ∧
      (write_record fl st r).2.tempFile = none := by
    intro r hr
    unfold write_record at hr ⊢
    by_cases hw : fl.writeTempFails
    · simp [hw]
    · by_cases hrn : fl.renameFails
      · simp [hw, hrn]
      · simp [hw, hrn] at hr
  cases info with
  | clear => simp [update_cache] at h
  | updateItemCount delta =>
      cases hcf : st.cacheFile with
      | none => simp [update_cache, hcf] at h
      | some fd =>
          cases fd with
          | corrupt => simp [update_cache, hcf]
          | record r =>
              by_cases hrd : fl.readFails
              · simp [update_cache, hcf, hrd]
              · simp only [update_cache, hcf, hrd, Bool.false_eq_true,
                  if_false] at h ⊢
                have hw := hwr _ h
                exact ⟨hw.1.trans hcf, Or.inr hw.2⟩
  | upsert sid sname ppath icount sstatus prov =>
      simp only [update_cache] at h ⊢
      have hw := hwr _ h
      exact ⟨hw.1, Or.inr hw.2⟩

/-- Witness for `failed_update_preserves_destination`: a delta against a
corrupt record fails and leaves the (corrupt) destination file untouched. -/
theorem failed_update_preserves_destination_witness :
    (update_cache noFail 99 (⟨some FileData.corrupt, none⟩ : CacheState)
        (SessionInfo.updateItemCount 1)).2.cacheFile = some FileData.corrupt ∧
    ((update_cache noFail 99 (⟨some FileData.corrupt, none⟩ : CacheState)
        (SessionInfo.updateItemCount 1)).2.tempFile = none ∨
      (update_cache noFail 99 (⟨some FileData.corrupt, none⟩ : CacheState)
        (SessionInfo.updateItemCount 1)).2.tempFile = none) :=
  failed_update_preserves_destination noFail 99 ⟨some FileData.corrupt, none⟩
    (SessionInfo.updateItemCount 1) (by decide)


theorem sanitize_props (s : String) :
    (∀ c ∈ (sanitize s).data, c ∉ badChars) ∧ (sanitize s).length ≤ 100 := by
  constructor
  · intro c hc
    have hc' : c ∈ (s.data.map (fun c => if c ∈ badChars then '_' else c)).take 100 := hc
    have hc2 := List.mem_of_mem_take hc'
    rw [List.mem_map] at hc2
    obtain ⟨a, -, ha⟩ := hc2
    by_cases hb : a ∈ badChars
    · rw [if_pos hb] at ha
      rw [← ha]
      decide
    · rw [if_neg hb] at ha
      rw [← ha]
      exact hb
  · show ((s.data.map (fun c => if c ∈ badChars then '_' else c)).take 100).length ≤ 100
    rw [List.length_take]
    omega

/-- C9: every resolved session key, on every resolution path of either
script (including the explicit override), contains none of the path-unsafe
characters and is at most 100 characters long. -/
theorem key_sanitized (e : Env) (k : String)
    (h : get_status_key e = some k ∨ statusline_status_key e = some k) :
    (∀ c ∈ k.data, c ∉ badChars) ∧ k.length ≤ 100 := by
  have hk : ∃ s, k = sanitize s := by
    rcases h with h | h
    · unfold get_status_key at h
      by_cases h1 : e.savecontext_status_key ≠ ""
      · rw [if_pos h1] at h
        exact ⟨_, (Option.some.inj h).symm⟩
      · rw [if_neg h1] at h
        by_cases h2 : resolve_platform_key e = ""
        · rw [if_pos h2] at h
          cases h
        · rw [if_neg h2] at h
          exact ⟨_, (Option.some.inj h).symm⟩
    · unfold statusline_status_key at h
      by_cases h2 : (if e.savecontext_status_key = ""
          then resolve_platform_key e else e.savecontext_status_key) = ""
      · rw [if_pos h2] at h
        cases h
      · rw [if_neg h2] at h
        exact ⟨_, (Option.some.inj h).symm⟩
  obtain ⟨s, rfl⟩ := hk
  exact sanitize_props s

/-- Witness for `key_sanitized`: the override `a b/c` resolves (in either
script) to the sanitized key `a_b_c`, which is clean and short. -/
theorem key_sanitized_witness :
    (∀ c ∈ ("a_b_c" : String).data, c ∉ badChars) ∧
    ("a_b_c" : String).length ≤ 100 :=
  key_sanitized
    ⟨"a b/c", "Linux", false, "", "", "", "", 1234, "", "", "", "", "", "", "", ""⟩
    "a_b_c" (Or.inl (by decide))

end SaveContext
